import Mathlib

/-
Verification of the media-resolution and media-ingestion core of the
shiromana-cli repository (src/command.rs), against its specification.

Modelling conventions.
The external library engine (the shiromana_rs crate) is out of scope for the
repository itself; the command code treats it as an oracle.  We model it as a
structure of response functions, one field per engine entry point the command
code calls.  Operations that return Result in the command code are modelled
with Option or Except; a Rust unwrap on a value that may be absent is modelled
by propagating none, so a result of none for a whole pipeline means the
invocation aborts abnormally instead of returning.  Machine integers (media
identifiers are u64 in the source) are modelled as Nat; the numeric parse
models the u64 range check explicitly.  Core string functions of Lean that do
not reduce inside the kernel are replaced by equivalent list-of-char
implementations, so every definition here evaluates on concrete input.
-/

namespace Shiromana

/-- Numeric value of a list of decimal digit characters, most significant
first.  Mirrors the accumulation performed by the integer FromStr
implementation consumed by query_string.parse() in src/command.rs line 198. -/
def digitsVal (l : List Char) : Nat :=
  l.foldl (fun a c => a * 10 + (c.toNat - 48)) 0

/-- Model of str::parse::<u64> as called (on the untrimmed query string) at
src/command.rs line 198: an optional leading plus sign, then one or more
ASCII digits, value within the u64 range; surrounding whitespace is rejected
by the Rust parser, and that behaviour is preserved here. -/
def parseU64 (s : String) : Option Nat :=
  let l := match s.data with
    | '+' :: rest => rest
    | l => l
  if l ≠ [] ∧ l.all Char.isDigit = true ∧ digitsVal l < 2 ^ 64 then some (digitsVal l)
  else none

/-- Leading and trailing whitespace removal on a character list. -/
def trimChars (l : List Char) : List Char :=
  ((l.dropWhile Char.isWhitespace).reverse.dropWhile Char.isWhitespace).reverse

/-- Model of str::trim as used on the query string in src/command.rs lines
208, 209 and 218 (whitespace here is the ASCII whitespace set of
Char.isWhitespace, which covers every character the claims exercise). -/
def rustTrim (s : String) : String := ⟨trimChars s.data⟩

/-- UTF-8 byte length of a character list; str::len in Rust is a byte count,
so the hash-length comparison at src/command.rs line 208 is modelled with
this function rather than a character count. -/
def utf8Len (l : List Char) : Nat :=
  l.foldl (fun n c => n + c.utf8Size) 0

/-- Media record as used by the resolution code: identifier, content hash and
filename are the fields the core logic depends on. -/
structure Media where
  id : Nat
  hash : String
  filename : String
  deriving DecidableEq

/-- Engine handle as seen by do_info: response functions for the four engine
entry points the resolver closure calls.  get_media returns some record or a
lookup failure; query_media and get_media_by_filename return some list of
identifiers on success and none on an engine error; get_hash_size is the
configured hash byte length. -/
structure Engine where
  get_media : Nat → Option Media
  query_media : String → Option (List Nat)
  get_media_by_filename : String → Option (List Nat)
  get_hash_size : Nat

/-- Equality predicate string built for the hash lookup, as formatted at
src/command.rs lines 209 and 340. -/
def hashPredicate (h : String) : String :=
  "hash = \x27" ++ h ++ "\x27"

/-- Model of mapping lib.get_media over a list of identifiers with unwrap on
each result (src/command.rs line 221): any lookup failure aborts the whole
collection, modelled as none. -/
def getAll (eng : Engine) : List Nat → Option (List Media)
  | [] => some []
  | i :: rest =>
    match eng.get_media i with
    | none => none
    | some m =>
      match getAll eng rest with
      | none => none
      | some ms => some (m :: ms)

/-- Filename attempt of the resolver, src/command.rs lines 218 to 225: look
up all identifiers whose filename equals the trimmed query, fetch each record
with unwrap, and on an engine error return the empty list. -/
def fileAttempt (eng : Engine) (q : String) : Option (List Media) :=
  match eng.get_media_by_filename (rustTrim q) with
  | some ids => getAll eng ids
  | none => some []

/-- Hash attempt followed by the filename attempt, src/command.rs lines 207
to 225.  When the trimmed query has exactly twice the hash byte length and
the hash query succeeds, the code takes first().unwrap() of the returned
identifier list and then get_media(...).unwrap(): both unwraps are modelled
by none (an abnormal abort) when the list is empty or the record lookup
fails.  Only a failed hash query, or a length mismatch, reaches the filename
attempt. -/
def hashThenFile (eng : Engine) (q : String) : Option (List Media) :=
  if utf8Len (rustTrim q).data = eng.get_hash_size * 2 then
    match eng.query_media (hashPredicate (rustTrim q)) with
    | some ids =>
      match ids with
      | [] => none
      | i :: _ =>
        match eng.get_media i with
        | some m => some [m]
        | none => none
    | none => fileAttempt eng q
  else fileAttempt eng q

/-- Identifier attempt of the resolver, src/command.rs lines 197 to 206: the
untrimmed query string is parsed as a u64 and, when both the parse and the
record lookup succeed, the single record is produced. -/
def idAttempt (eng : Engine) (q : String) : Option (List Media) :=
  match parseU64 q with
  | some v => (eng.get_media v).map (fun m => [m])
  | none => none

/-- The get_media closure of do_info, src/command.rs lines 196 to 226: the
identifier attempt first, and on its failure (parse failure or record not
found) the hash attempt and then the filename attempt. -/
def do_info_get_media (eng : Engine) (query_string : String) : Option (List Media) :=
  match parseU64 query_string with
  | some v =>
    match eng.get_media v with
    | some m => some [m]
    | none => hashThenFile eng query_string
  | none => hashThenFile eng query_string

/-- Error variants of add_media that the ingestion code distinguishes,
src/command.rs line 338: the already-exists variant carries the content hash
of the pre-existing record, everything else is a generic failure. -/
inductive AddError where
  | alreadyExists (hash : String)
  | other
  deriving DecidableEq

/-- Engine handle as seen by do_add: response functions for the engine entry
points the ingestion and series-binding code calls.  add_media is abstracted
as a function of the file path (the media type, title and comment arguments
plumbed through add_one_media do not influence which of the three response
classes the control flow distinguishes); query_media returns ok with a list
of identifiers or an engine error; create_series and get_series_by_name
return some value on success and none on failure; add_to_series receives the
identifier, the series uuid, the optional explicit position and the
use-default-ordering flag, and reports success or failure. -/
structure AddEngine where
  add_media : String → Except AddError Nat
  query_media : String → Except Unit (List Nat)
  get_media : Nat → Option Media
  create_series : String → Option String
  get_series_by_name : String → Option String
  add_to_series : Nat → String → Option Nat → Bool → Option Unit

/-- Outcome of ingesting one file, src/command.rs lines 329 to 380: the outer
Option is none when the code aborts abnormally (the get_media unwrap at line
355 on a recovered identifier that the engine then fails to return); the
inner Option Nat is the per-file entry of the ids vector, some id for a
registered or duplicate-recovered file and none for a failed one.  On an
already-exists error, the hash-equality recovery query is made: a query error
is reported and yields none (failed), a successful query with no rows yields
none, and a successful query yields its first identifier after the record is
fetched for the notice printed at lines 356 to 366. -/
def ingestOne (eng : AddEngine) (file : String) : Option (Option Nat) :=
  match eng.add_media file with
  | .ok id => some (some id)
  | .error (.alreadyExists s) =>
    match eng.query_media (hashPredicate s) with
    | .error _ => some none
    | .ok ids =>
      match ids.head? with
      | none => some none
      | some i =>
        match eng.get_media i with
        | some _ => some (some i)
        | none => none
  | .error .other => some none

/-- The per-file ingestion loop of do_add, src/command.rs lines 327 to 381: a
map over the input files collecting one Option Nat per file, aborting only if
a single file aborts abnormally. -/
def ingest (eng : AddEngine) : List String → Option (List (Option Nat))
  | [] => some []
  | f :: rest =>
    match ingestOne eng f with
    | none => none
    | some o =>
      match ingest eng rest with
      | none => none
      | some os => some (o :: os)

/-- Engine mutations issued by the series-binding phase of do_add, recorded
with the exact arguments the code passes. -/
inductive EngCall where
  | createSeries (name : String)
  | addToSeries (id : Nat) (uuid : String) (pos : Option Nat) (use_default : Bool)
  deriving DecidableEq

/-- Exit state of the series-binding phase: ok with a flag recording whether
the sorted-skip warning was printed and an optional report (bound count and
series uuid, printed at src/command.rs lines 423 to 427), or an error
propagated out of do_add by the question-mark operator. -/
inductive AddExit where
  | ok (warned : Bool) (report : Option (Nat × String))
  | err
  deriving DecidableEq

/-- Options of the add command relevant to series binding, from the Add
struct of src/main.rs: the sorted flag, an existing series uuid, and a new
series name (the clap group makes the last two mutually exclusive). -/
structure AddOpt where
  sorted : Bool
  series : Option String
  new_series : Option String

/-- Series target resolution of do_add, src/command.rs lines 387 to 414: an
existing uuid is used as is; a new-series name is checked for collision with
get_series_by_name, on collision an interactively prompted replacement name
is used (promptName is the accepted prompt answer, none meaning the
interaction failed and the error propagates), and create_series is then
called; with neither option no series is targeted.  The returned trace
records the create_series call when it is made. -/
def resolveSeries (eng : AddEngine) (opt : AddOpt) (promptName : Option String) :
    List EngCall × Except Unit (Option String) :=
  match opt.series with
  | some uuid => ([], .ok (some uuid))
  | none =>
    match opt.new_series with
    | some name =>
      let chosen : Except Unit String :=
        match eng.get_series_by_name name with
        | some _ =>
          match promptName with
          | some r => .ok r
          | none => .error ()
        | none => .ok name
      match chosen with
      | .error _ => ([], .error ())
      | .ok n =>
        match eng.create_series n with
        | some uuid => ([.createSeries n], .ok (some uuid))
        | none => ([.createSeries n], .error ())
    | none => ([], .ok none)

/-- The binding loop of do_add, src/command.rs lines 420 to 422: each kept
identifier is bound with an explicit position of none and a use-default-order
flag of not sorted (the enumerate index i of the source loop is never passed
to the engine).  A failing call propagates an error out of the loop through
the question-mark operator, so the trace ends at the failing call. -/
def runBind (eng : AddEngine) (uuid : String) (sorted : Bool) : List Nat → List EngCall × Bool
  | [] => ([], true)
  | i :: rest =>
    match eng.add_to_series i uuid none (!sorted) with
    | some _ =>
      let r := runBind eng uuid sorted rest
      (EngCall.addToSeries i uuid none (!sorted) :: r.1, r.2)
    | none => ([EngCall.addToSeries i uuid none (!sorted)], false)

/-- The series-binding phase of do_add after ingestion, src/command.rs lines
382 to 429: if the sorted flag is set and any per-file outcome is none, a
warning is printed and the function returns ok immediately, no engine call
made; otherwise the series target is resolved, the failed outcomes are
dropped by retain, the kept identifiers are bound in order, and on success
the bound count and uuid are reported. -/
def seriesPhase (eng : AddEngine) (opt : AddOpt) (promptName : Option String)
    (ids : List (Option Nat)) : List EngCall × AddExit :=
  if opt.sorted && ids.any (fun v => v.isNone) then
    ([], .ok true none)
  else
    match resolveSeries eng opt promptName with
    | (tr, .error _) => (tr, .err)
    | (tr, .ok none) => (tr, .ok false none)
    | (tr, .ok (some uuid)) =>
      let kept := ids.filterMap (fun v => v)
      let r := runBind eng uuid opt.sorted kept
      if r.2 then (tr ++ r.1, .ok false (some (kept.length, uuid)))
      else (tr ++ r.1, .err)

/-- Split a character list at newline characters, keeping empty segments;
a trailing newline does not open a final empty segment once rustLines drops
it. -/
def splitNl : List Char → List (List Char)
  | [] => [[]]
  | c :: rest =>
    if c = '\n' then [] :: splitNl rest
    else
      match splitNl rest with
      | [] => [[c]]
      | h :: t => (c :: h) :: t

/-- Model of str::lines as used at src/command.rs line 296: split at newline
characters, drop a final empty segment produced by a trailing newline, and
strip one trailing carriage return from each line. -/
def rustLines (s : String) : List String :=
  let parts := splitNl s.data
  let parts :=
    match parts.getLast? with
    | some [] => parts.dropLast
    | _ => parts
  parts.map (fun l => ⟨if l.getLast? = some '\r' then l.dropLast else l⟩)

/-- Whether byte offset k is a character boundary of the character list l; a
byte-range index into a Rust str aborts the program when its end is not a
boundary. -/
def isBoundary (l : List Char) (k : Nat) : Bool :=
  (List.range (l.length + 1)).any (fun i => utf8Len (l.take i) == k)

/-- Per-line processing of parse_input_file, src/command.rs lines 297 to 303.
The code indexes the byte range 0..7 of the line before any length check, so
a line of fewer than 7 bytes, or one whose byte 7 falls inside a character,
aborts the program (modelled as none).  Otherwise, when the first seven bytes
are the file URI scheme marker the line is given to the URI parser and its
path component taken (urlPath, with none modelling the unwrap abort on an
unparsable line), and any other line is kept verbatim. -/
def processLine (urlPath : String → Option String) (v : String) : Option String :=
  if utf8Len v.data < 7 then none
  else if isBoundary v.data 7 = false then none
  else if v.data.take 7 = "file://".data then urlPath v
  else some v

/-- The line-mapping stage of parse_input_file over all manifest lines: the
candidate path list handed to the existence check, or an abnormal abort if
any single line aborts. -/
def mapLines (urlPath : String → Option String) : List String → Option (List String)
  | [] => some []
  | v :: rest =>
    match processLine urlPath v with
    | none => none
    | some p =>
      match mapLines urlPath rest with
      | none => none
      | some ps => some (p :: ps)

/-- On a successful identifier parse and record lookup the resolver returns
the single record at once. -/
lemma get_media_id_hit (eng : Engine) (q : String) (n : Nat) (m : Media)
    (h1 : parseU64 q = some n) (h2 : eng.get_media n = some m) :
    do_info_get_media eng q = some [m] := by
  simp [do_info_get_media, h1, h2]

/-- When the identifier attempt yields nothing, the resolver continues with
the hash attempt. -/
lemma get_media_id_miss (eng : Engine) (q : String) (h : idAttempt eng q = none) :
    do_info_get_media eng q = hashThenFile eng q := by
  unfold idAttempt at h
  rcases hp : parseU64 q with _ | v
  · simp [do_info_get_media, hp]
  · rw [hp] at h
    simp only [Option.map_eq_none'] at h
    simp [do_info_get_media, hp, h]

/-- When every binding call succeeds, the binding loop issues exactly one
call per kept identifier, in order, each with no explicit position and the
default-order flag set. -/
lemma runBind_all_ok (eng : AddEngine) (uuid : String) (l : List Nat)
    (hok : ∀ i, eng.add_to_series i uuid none true = some ()) :
    runBind eng uuid false l =
      (l.map (fun i => EngCall.addToSeries i uuid none true), true) := by
  induction l with
  | nil => rfl
  | cons i rest ih => simp [runBind, hok i, ih]

/-- The number of identifiers kept by retain equals the number of non-failed
outcomes. -/
lemma length_filterMap_opt (l : List (Option Nat)) :
    (l.filterMap (fun v => v)).length = l.countP (fun v => v.isSome) := by
  induction l with
  | nil => rfl
  | cons a t ih =>
    cases a <;> simp [List.filterMap_cons, List.countP_cons, ih]

/-- Ingestion of a batch in which no file aborts abnormally yields exactly
the per-file outcomes, in input order. -/
lemma ingest_eq_map (eng : AddEngine) : ∀ (files : List String),
    (∀ f ∈ files, (ingestOne eng f).isSome = true) →
    ingest eng files = some (files.map (fun f => (ingestOne eng f).getD none))
  | [], _ => rfl
  | f :: rest, h => by
    have hf := h f (List.mem_cons_self f rest)
    obtain ⟨o, ho⟩ := Option.isSome_iff_exists.mp hf
    have ih := ingest_eq_map eng rest (fun g hg => h g (List.mem_cons_of_mem f hg))
    simp [ingest, ho, ih]

/-- C1: the resolver tries the identifier attempt, then the hash attempt,
then the filename attempt, in that order, stopping at the first attempt that
yields a record: a successful identifier parse with an existing record
returns exactly that single record whatever the other engine tables hold; if
the identifier attempt yields nothing and the hash attempt finds a record it
is returned; and only when the hash attempt is skipped (length mismatch) or
its query fails does the filename attempt decide the result. -/
theorem resolver_chain_priority :
    (∀ (eng : Engine) (q : String) (n : Nat) (m : Media),
      parseU64 q = some n → eng.get_media n = some m →
      do_info_get_media eng q = some [m]) ∧
    (∀ (eng : Engine) (q : String) (i : Nat) (r : List Nat) (m : Media),
      idAttempt eng q = none →
      utf8Len (rustTrim q).data = eng.get_hash_size * 2 →
      eng.query_media (hashPredicate (rustTrim q)) = some (i :: r) →
      eng.get_media i = some m →
      do_info_get_media eng q = some [m]) ∧
    (∀ (eng : Engine) (q : String),
      idAttempt eng q = none →
      (¬ utf8Len (rustTrim q).data = eng.get_hash_size * 2 ∨
        eng.query_media (hashPredicate (rustTrim q)) = none) →
      do_info_get_media eng q = fileAttempt eng q) := by
  refine ⟨fun eng q n m h1 h2 => get_media_id_hit eng q n m h1 h2, ?_, ?_⟩
  · intro eng q i r m hid hlen hq hm
    rw [get_media_id_miss eng q hid]
    simp [hashThenFile, hlen, hq, hm]
  · intro eng q hid hmiss
    rw [get_media_id_miss eng q hid]
    rcases hmiss with hne | hqe
    · simp [hashThenFile, hne]
    · unfold hashThenFile
      split
      · rw [hqe]
      · rfl

/-- Record with identifier 42 used by the resolver witnesses. -/
def MC1 : Media := { id := 42, hash := "c1hash", filename := "pic.png" }

/-- Record whose filename is literally the string 42. -/
def MC1b : Media := { id := 7, hash := "otherhash", filename := "42" }

/-- Engine holding record 42 and a second record whose filename is 42. -/
def EC1 : Engine where
  get_media := fun n => if n = 42 then some MC1 else if n = 7 then some MC1b else none
  query_media := fun _ => none
  get_media_by_filename := fun s => if s = "42" then some [7] else some []
  get_hash_size := 32

/-- Record found through the hash attempt in the witnesses. -/
def MC1c : Media := { id := 9, hash := "ab", filename := "f.png" }

/-- Engine with hash byte length 1 whose hash table answers the query ab. -/
def EC1h : Engine where
  get_media := fun n => if n = 9 then some MC1c else none
  query_media := fun s => if s = hashPredicate "ab" then some [9] else none
  get_media_by_filename := fun _ => some []
  get_hash_size := 1

/-- Engine on which every attempt of the resolver misses. -/
def EC1f : Engine where
  get_media := fun _ => none
  query_media := fun _ => none
  get_media_by_filename := fun _ => some []
  get_hash_size := 32

/-- Witness for C1 at concrete inputs: the identifier match on the query 42
beats the record whose filename is 42, a hash match is returned when the
identifier attempt misses, and with neither the filename attempt decides. -/
theorem resolver_chain_priority_witness :
    do_info_get_media EC1 "42" = some [MC1] ∧
    do_info_get_media EC1h "ab" = some [MC1c] ∧
    do_info_get_media EC1f "zz" = fileAttempt EC1f "zz" :=
  ⟨resolver_chain_priority.1 EC1 "42" 42 MC1 (by decide) (by decide),
   resolver_chain_priority.2.1 EC1h "ab" 9 [] MC1c (by decide) (by decide) (by decide)
     (by decide),
   resolver_chain_priority.2.2 EC1f "zz" (by decide) (Or.inl (by decide))⟩

/-- Engine with hash byte length 1 whose hash query succeeds with zero
matches on every predicate. -/
def EC3 : Engine where
  get_media := fun _ => none
  query_media := fun _ => some []
  get_media_by_filename := fun _ => some []
  get_hash_size := 1

/-- C3: contrary to the claim, a successful hash query with zero matches does
not fall through to the filename attempt: the resolver takes
first().unwrap() of the empty identifier list and aborts (modelled as none),
even though the filename attempt would have returned the empty result. -/
theorem resolver_hash_zero_match_aborts :
    do_info_get_media EC3 "ab" = none ∧ fileAttempt EC3 "ab" = some [] := by
  decide

/-- Record with identifier 42 used by the C7 theorems. -/
def MC7 : Media := { id := 42, hash := "c7hash", filename := "pic42.png" }

/-- Engine holding record 42 and nothing else. -/
def EC7 : Engine where
  get_media := fun n => if n = 42 then some MC7 else none
  query_media := fun _ => none
  get_media_by_filename := fun _ => some []
  get_hash_size := 32

/-- Counterexample to C7: the identifier attempt parses the query before any
trimming, so the query consisting of 42 surrounded by spaces misses record
42 entirely and the resolver falls through to the filename attempt, returning
the empty result instead of the record. -/
theorem resolver_trimmed_parse_counterexample :
    EC7.get_media 42 = some MC7 ∧
    do_info_get_media EC7 " 42 " = some [] ∧
    do_info_get_media EC7 " 42 " ≠ some [MC7] := by
  decide

/-- C7 amended: the identifier attempt parses the untrimmed query string, so
for every query that is exactly a numeric identifier with no surrounding
whitespace and whose record the engine holds, the resolver returns that
single record through the identifier attempt. -/
theorem resolver_id_parse_untrimmed (eng : Engine) (q : String) (n : Nat) (m : Media)
    (h1 : parseU64 q = some n) (h2 : eng.get_media n = some m) :
    do_info_get_media eng q = some [m] :=
  get_media_id_hit eng q n m h1 h2

/-- Witness for the amended C7 at the query 42 on an engine holding record
42. -/
theorem resolver_id_parse_untrimmed_witness :
    do_info_get_media EC7 "42" = some [MC7] :=
  resolver_id_parse_untrimmed EC7 "42" 42 MC7 (by decide) (by decide)

/-- C5: when registration fails with the already-exists error carrying a
content hash, the pipeline queries the engine for media with that stored
hash: if the query returns exactly one identifier (and its record is
fetchable for the existing-media notice) the outcome is the recovered
duplicate identifier, and if the recovery query itself fails the outcome is a
failure. -/
theorem ingest_duplicate_recovery :
    (∀ (eng : AddEngine) (f s : String) (i : Nat) (m : Media),
      eng.add_media f = .error (.alreadyExists s) →
      eng.query_media (hashPredicate s) = .ok [i] →
      eng.get_media i = some m →
      ingestOne eng f = some (some i)) ∧
    (∀ (eng : AddEngine) (f s : String),
      eng.add_media f = .error (.alreadyExists s) →
      eng.query_media (hashPredicate s) = .error () →
      ingestOne eng f = some none) := by
  constructor
  · intro eng f s i m h1 h2 h3
    simp [ingestOne, h1, h2, h3]
  · intro eng f s h1 h2
    simp [ingestOne, h1, h2]

/-- Pre-existing record recovered by the duplicate path in the C5 witness. -/
def MC5 : Media := { id := 9, hash := "aa", filename := "dup.png" }

/-- Engine reporting every addition as a duplicate of the record with hash
aa, which its hash query finds. -/
def EC5 : AddEngine where
  add_media := fun _ => .error (.alreadyExists "aa")
  query_media := fun s => if s = hashPredicate "aa" then .ok [9] else .error ()
  get_media := fun n => if n = 9 then some MC5 else none
  create_series := fun _ => none
  get_series_by_name := fun _ => none
  add_to_series := fun _ _ _ _ => none

/-- Engine reporting every addition as a duplicate while its hash query
always fails. -/
def EC5b : AddEngine where
  add_media := fun _ => .error (.alreadyExists "bb")
  query_media := fun _ => .error ()
  get_media := fun _ => none
  create_series := fun _ => none
  get_series_by_name := fun _ => none
  add_to_series := fun _ _ _ _ => none

/-- Witness for C5 at concrete engines: the duplicate identifier 9 is
recovered through the hash query, and a failing recovery query turns the
outcome into a failure. -/
theorem ingest_duplicate_recovery_witness :
    ingestOne EC5 "x.png" = some (some 9) ∧ ingestOne EC5b "y.png" = some none :=
  ⟨ingest_duplicate_recovery.1 EC5 "x.png" "aa" 9 MC5 rfl (by simp [EC5]) rfl,
   ingest_duplicate_recovery.2 EC5b "y.png" "bb" rfl rfl⟩

/-- C9: ingestion produces exactly one outcome per input file, in input
order, and a failing file never aborts the processing of subsequent files:
whenever no file makes the process abort abnormally, the result is precisely
the map of the independent per-file outcome over the batch, whose length is
the number of input files. -/
theorem ingest_one_outcome_per_file (eng : AddEngine) (files : List String)
    (h : ∀ f ∈ files, (ingestOne eng f).isSome = true) :
    ingest eng files = some (files.map (fun f => (ingestOne eng f).getD none)) ∧
    (files.map (fun f => (ingestOne eng f).getD none)).length = files.length :=
  ⟨ingest_eq_map eng files h, List.length_map files _⟩

/-- Engine failing the addition of the file named bad and registering every
other file under identifier 5. -/
def EC9 : AddEngine where
  add_media := fun f => if f = "bad" then .error .other else .ok 5
  query_media := fun _ => .error ()
  get_media := fun _ => none
  create_series := fun _ => none
  get_series_by_name := fun _ => none
  add_to_series := fun _ _ _ _ => none

/-- Witness for C9 on a two-file batch whose first file fails: both files
still receive their own outcome, in order. -/
theorem ingest_one_outcome_per_file_witness :
    ingest EC9 ["bad", "good"] =
      some ((["bad", "good"]).map (fun f => (ingestOne EC9 f).getD none)) ∧
    ((["bad", "good"]).map (fun f => (ingestOne EC9 f).getD none)).length =
      (["bad", "good"] : List String).length :=
  ingest_one_outcome_per_file EC9 ["bad", "good"] (by decide)

/-- C4: when the sorted flag is set and some ingestion outcome failed, the
whole series-binding phase stops at once with the warning: no engine call of
any kind is made (in particular no series is created even under a new-series
intent, and no binding call happens) and do_add still returns success. -/
theorem sorted_abort_no_mutation (eng : AddEngine) (opt : AddOpt) (p : Option String)
    (ids : List (Option Nat)) (hs : opt.sorted = true)
    (hf : ids.any (fun v => v.isNone) = true) :
    seriesPhase eng opt p ids = ([], AddExit.ok true none) := by
  simp [seriesPhase, hs, hf]

/-- Engine whose series operations all succeed, used by the C4 witness. -/
def EC4 : AddEngine where
  add_media := fun _ => .ok 1
  query_media := fun _ => .error ()
  get_media := fun _ => none
  create_series := fun _ => some "u4"
  get_series_by_name := fun _ => none
  add_to_series := fun _ _ _ _ => some ()

/-- Witness for C4: with the sorted flag, one failed outcome and a new-series
intent, the binding phase performs zero engine calls, creates no series,
warns, and exits successfully. -/
theorem sorted_abort_no_mutation_witness :
    seriesPhase EC4 { sorted := true, series := none, new_series := some "n" } none
      [none, some 1] = ([], AddExit.ok true none) :=
  sorted_abort_no_mutation EC4 _ none [none, some 1] rfl (by decide)

/-- Engine whose add_to_series always succeeds, used by the C2 theorem. -/
def EC2 : AddEngine where
  add_media := fun _ => .error .other
  query_media := fun _ => .error ()
  get_media := fun _ => none
  create_series := fun _ => none
  get_series_by_name := fun _ => none
  add_to_series := fun _ _ _ _ => some ()

/-- C2: contrary to the claim, when binding proceeds with the sorted flag set
the code does not pass each position in the filtered sequence as an explicit
sort index: every add_to_series call carries an explicit position of none
(with default ordering disabled), because the enumerate index of the source
loop is never forwarded; the recorded trace differs from the trace the claim
describes. -/
theorem sorted_bind_position_not_passed :
    seriesPhase EC2 { sorted := true, series := some "s", new_series := none } none
        [some 1, some 2] =
      ([EngCall.addToSeries 1 "s" none false, EngCall.addToSeries 2 "s" none false],
        AddExit.ok false (some (2, "s"))) ∧
    [EngCall.addToSeries 1 "s" none false, EngCall.addToSeries 2 "s" none false] ≠
      [EngCall.addToSeries 1 "s" (some 0) false, EngCall.addToSeries 2 "s" (some 1) false] := by
  decide

/-- C8: with the sorted flag off and an existing target series, when every
binding call is accepted by the engine the binding phase calls add_to_series
once per non-failed outcome, on the kept identifiers in their original input
order with default ordering requested, and reports exactly that count with
the series uuid. -/
theorem unsorted_bind_counts (eng : AddEngine) (opt : AddOpt) (p : Option String)
    (uuid : String) (ids : List (Option Nat))
    (hs : opt.sorted = false) (hser : opt.series = some uuid)
    (hok : ∀ i, eng.add_to_series i uuid none true = some ()) :
    seriesPhase eng opt p ids =
      ((ids.filterMap (fun v => v)).map (fun i => EngCall.addToSeries i uuid none true),
        AddExit.ok false (some ((ids.filterMap (fun v => v)).length, uuid))) ∧
    (ids.filterMap (fun v => v)).length = ids.countP (fun v => v.isSome) := by
  refine ⟨?_, length_filterMap_opt ids⟩
  have hrb := runBind_all_ok eng uuid (ids.filterMap (fun v => v)) hok
  simp [seriesPhase, resolveSeries, hs, hser, hrb]

/-- Engine whose add_to_series always succeeds, used by the C8 witness. -/
def EC8 : AddEngine where
  add_media := fun _ => .ok 1
  query_media := fun _ => .error ()
  get_media := fun _ => none
  create_series := fun _ => none
  get_series_by_name := fun _ => none
  add_to_series := fun _ _ _ _ => some ()

/-- Witness for C8 on the outcome list with identifiers 3 and 1 around one
failure: two binding calls, original order, reported count two. -/
theorem unsorted_bind_counts_witness :
    seriesPhase EC8 { sorted := false, series := some "u", new_series := none } none
        [some 3, none, some 1] =
      ((([some 3, none, some 1] : List (Option Nat)).filterMap (fun v => v)).map
          (fun i => EngCall.addToSeries i "u" none true),
        AddExit.ok false
          (some ((([some 3, none, some 1] : List (Option Nat)).filterMap (fun v => v)).length,
            "u"))) ∧
    (([some 3, none, some 1] : List (Option Nat)).filterMap (fun v => v)).length =
      ([some 3, none, some 1] : List (Option Nat)).countP (fun v => v.isSome) :=
  unsorted_bind_counts EC8 _ none "u" [some 3, none, some 1] rfl rfl (fun _ => rfl)

/-- C10: with the sorted flag off and a new-series intent whose name does not
collide, the series is created even when every ingestion outcome failed; no
binding call follows and a bound count of zero is reported for the freshly
created series. -/
theorem new_series_created_all_failed (eng : AddEngine) (opt : AddOpt) (p : Option String)
    (name uuid : String) (ids : List (Option Nat))
    (hs : opt.sorted = false) (h1 : opt.series = none) (h2 : opt.new_series = some name)
    (h3 : eng.get_series_by_name name = none) (h4 : eng.create_series name = some uuid)
    (hall : ∀ v ∈ ids, v = none) :
    seriesPhase eng opt p ids =
      ([EngCall.createSeries name], AddExit.ok false (some (0, uuid))) := by
  have hkept : ids.filterMap (fun v => v) = [] := by
    rw [List.filterMap_eq_nil_iff]
    exact hall
  simp [seriesPhase, resolveSeries, hs, h1, h2, h3, h4, hkept, runBind]

/-- Engine that creates any requested series under the uuid u10, used by the
C10 witness. -/
def EC10 : AddEngine where
  add_media := fun _ => .error .other
  query_media := fun _ => .error ()
  get_media := fun _ => none
  create_series := fun _ => some "u10"
  get_series_by_name := fun _ => none
  add_to_series := fun _ _ _ _ => some ()

/-- Witness for C10: both outcomes failed, the sorted flag is off, and the
fresh series is still created with a reported bound count of zero. -/
theorem new_series_created_all_failed_witness :
    seriesPhase EC10 { sorted := false, series := none, new_series := some "fresh" } none
      [none, none] = ([EngCall.createSeries "fresh"], AddExit.ok false (some (0, "u10"))) :=
  new_series_created_all_failed EC10 _ none "fresh" "u10" [none, none] rfl rfl rfl rfl rfl
    (by decide)

/-- Path mapping that keeps every URI line unchanged, a stand-in for the URI
path extraction in the C6 theorem (the aborting behaviour shown there does
not depend on it). -/
def verbatimPath : String → Option String := fun s => some s

/-- C6: contrary to the claim, per-line manifest processing is not total: the
code indexes the first seven bytes of each line before any length check, so a
non-URI line shorter than seven bytes (here the one-character line a, and
likewise an empty line) aborts the program instead of being treated verbatim,
and one such line aborts the whole mapping before the existence check, while
lines of seven bytes or more are indeed kept verbatim. -/
theorem manifest_short_line_aborts :
    processLine verbatimPath "a" = none ∧
    processLine verbatimPath "" = none ∧
    processLine verbatimPath "shorter" = some "shorter" ∧
    mapLines verbatimPath (rustLines "a\n/tmp/file1") = none := by
  decide

end Shiromana
